import Mathlib

/-!
Shallow embedding of the estore-backend order subsystem.

Sources embedded:
- `products/models.py` (`ProductVariant`: `discounted_price`, `reduce_stock`,
  `increase_stock`)
- `users/models/address.py` (`Address.save` default-clearing logic)
- `orders/models.py` (`Order.save`, `OrderItem.save`, `can_cancel`)
- `orders/services/order_service.py` (`validate_order_data`,
  `create_order_from_data`, `_create_or_get_address`, `cancel_order`,
  `update_payment_status`, `generate_order_number`)

Monetary values (Python `Decimal`) are modelled as `Rat`: all the arithmetic
the embedded code performs (addition, subtraction, multiplication, division
by 100) is exact rational arithmetic at the magnitudes involved, matching
`Decimal`'s exactness. Quantities and stock counts are `Nat`, matching
Django's `PositiveIntegerField`. Database rows are lists of records inside a
`Store`; primary keys are `Nat` drawn from a `next_id` counter (standing in
for UUIDs). Python `datetime` timestamps are abstract `Nat` instants.
Randomness (the order-number suffix) and the current date string are passed
in as explicit parameters. A raised Python exception is an `Except.error`;
Django's `transaction.atomic` rollback is modelled by the caller keeping the
old store when the result is an error (`runCreateOrder`).
-/

deriving instance DecidableEq for Except

namespace EStore

/-- Error taxonomy at the service boundary: Python `ValidationError`,
`PermissionDenied`, a bare `ValueError` (raised by `reduce_stock`), and the
database unique-constraint violation on `order_number`. -/
inductive OrderError where
  | validationError (msg : String)
  | permissionDenied (msg : String)
  | valueError (msg : String)
  | uniquenessViolation (field : String)
deriving DecidableEq

/-- `products.models.ProductVariant`: the pricing/stock row, together with
the parent product fields the order flow reads (`product.status`,
`product.title`, `product.slug`). -/
structure ProductVariant where
  id : Nat
  sku : String
  price : Rat
  discount_amount : Rat
  stock : Nat
  is_active : Bool
  product_status : String
  product_title : String
  product_slug : String
  attributes : List (String × String)
deriving DecidableEq

/-- `ProductVariant.discounted_price` property. -/
def ProductVariant.discounted_price (v : ProductVariant) : Rat :=
  v.price - v.discount_amount

/-- `ProductVariant.reduce_stock`: raises `ValueError` when
`quantity > self.stock`, else subtracts and persists. -/
def ProductVariant.reduce_stock (v : ProductVariant) (quantity : Nat) :
    Except OrderError ProductVariant :=
  if v.stock < quantity then
    .error (.valueError ("Insufficient stock. Available: " ++ toString v.stock
      ++ ", Requested: " ++ toString quantity))
  else
    .ok { v with stock := v.stock - quantity }

/-- `ProductVariant.increase_stock`: unconditionally adds and persists. -/
def ProductVariant.increase_stock (v : ProductVariant) (quantity : Nat) :
    ProductVariant :=
  { v with stock := v.stock + quantity }

/-- `users.models.Address` row. `user = none` is a guest address. -/
structure Address where
  id : Nat
  user : Option Nat
  address_type : String
  first_name : String
  last_name : String
  company : String
  phone : String
  email : String
  address_line1 : String
  address_line2 : String
  city : String
  state : String
  postal_code : String
  country : String
  instructions : String
  is_default : Bool
  is_active : Bool
deriving DecidableEq

/-- `orders.models.Order` row (the fields the embedded operations touch). -/
structure Order where
  id : Nat
  user : Option Nat
  guest_email : String
  guest_first_name : String
  guest_last_name : String
  guest_phone : String
  order_number : String
  status : String
  payment_status : String
  payment_method : String
  shipping_address_id : Nat
  billing_address_id : Nat
  subtotal : Rat
  shipping_cost : Rat
  tax_amount : Rat
  tax_rate : Rat
  discount_amount : Rat
  total : Rat
  currency : String
  shipping_method : String
  payment_intent_id : String
  payment_receipt_url : String
  customer_note : String
  admin_note : String
  confirmed_at : Option Nat
  cancelled_at : Option Nat
deriving DecidableEq

/-- `Order.STATUS_CHOICES` keys. -/
def orderStatusChoices : List String :=
  ["pending", "confirmed", "processing", "shipped", "delivered",
   "cancelled", "refunded"]

/-- `Order.PAYMENT_STATUS_CHOICES` keys. -/
def paymentStatusChoices : List String :=
  ["pending", "paid", "failed", "refunded"]

/-- `OrderService.generate_order_number`: `ORD` + date string + random
suffix (the random draw is passed in as `rand_str`). -/
def generate_order_number (date_str rand_str : String) : String :=
  "ORD" ++ date_str ++ rand_str

/-- `Order.save`: if `order_number` is empty, fill it with the
date-plus-random identifier, then recompute `total` from the other four
monetary fields. No collision check is performed here. -/
def Order.save (date_str rand_str : String) (o : Order) : Order :=
  let o :=
    if o.order_number = "" then
      { o with order_number := generate_order_number date_str rand_str }
    else o
  { o with total := o.subtotal + o.shipping_cost + o.tax_amount - o.discount_amount }

/-- `Order.can_cancel` property. -/
def Order.can_cancel (o : Order) : Bool :=
  o.status = "pending" ∨ o.status = "confirmed"

/-- `orders.models.OrderItem` row. `variant` is an optional foreign key
(`SET_NULL`). -/
structure OrderItem where
  id : Nat
  order_id : Nat
  variant : Option Nat
  product_title : String
  product_slug : String
  variant_attributes : List (String × String)
  sku : String
  unit_price : Rat
  discount_amount : Rat
  quantity : Nat
  total_price : Rat
deriving DecidableEq

/-- `OrderItem.save`: snapshot product fields from the variant when the item
has a variant but no title yet, then recompute
`total_price = (unit_price - discount_amount) * quantity`. The dereferenced
variant row is passed in as `variantRow` (the foreign-key lookup). -/
def OrderItem.save (variantRow : Option ProductVariant) (it : OrderItem) :
    OrderItem :=
  let it :=
    if it.variant.isSome ∧ it.product_title = "" then
      match variantRow with
      | some v =>
          { it with product_title := v.product_title,
                    product_slug := v.product_slug,
                    variant_attributes := v.attributes,
                    sku := v.sku }
      | none => it
    else it
  { it with total_price := (it.unit_price - it.discount_amount) * (it.quantity : Rat) }

/-- The authenticated principal as the services see it. -/
structure UserRec where
  id : Nat
  is_authenticated : Bool
  is_staff : Bool
deriving DecidableEq

/-- The relational store: all rows the embedded operations read or write,
plus a fresh-id counter standing in for UUID generation. -/
structure Store where
  variants : List ProductVariant
  orders : List Order
  orderItems : List OrderItem
  addresses : List Address
  next_id : Nat
deriving DecidableEq

/-- `Address.save` at the store level: clear `is_default` on other rows of
the same `(user, address_type)` only when the saved address is default AND
has a non-null user, then upsert the row (Django save on an existing id
updates it; `exclude(id=self.id)` keeps the saved row out of the clearing). -/
def addressSave (addrs : List Address) (a : Address) : List Address :=
  let rest := addrs.filter (fun x => x.id ≠ a.id)
  let rest :=
    if a.is_default ∧ a.user.isSome then
      rest.map (fun x =>
        if x.user = a.user ∧ x.address_type = a.address_type ∧ x.is_default then
          { x with is_default := false }
        else x)
    else rest
  rest ++ [a]

/-- One entry of the payload's `items` list. `Option` marks dict-key
presence; Python truthiness on strings is emptiness here. -/
structure ItemData where
  variant_id : Option Nat
  quantity : Option Nat
  unit_price : Option Rat
deriving DecidableEq

/-- An address sub-dictionary of the payload. Absent keys are modelled as
`""`, which the code treats identically (missing-or-falsy checks). -/
structure AddressData where
  first_name : String
  last_name : String
  company : String
  phone : String
  email : String
  address_line1 : String
  address_line2 : String
  city : String
  state : String
  postal_code : String
  country : String
  instructions : String
  is_default : Bool
deriving DecidableEq

def emptyAddressData : AddressData :=
  ⟨"", "", "", "", "", "", "", "", "", "", "", "", false⟩

/-- The order-creation payload dictionary. -/
structure OrderData where
  items : Option (List ItemData)
  shipping_address : Option AddressData
  billing_address : Option AddressData
  payment_method : Option String
  use_separate_billing : Option Bool
  guest_email : String
  guest_first_name : String
  guest_last_name : String
  guest_phone : String
  shipping_cost : Option Rat
  tax_rate : Option Rat
  discount_amount : Option Rat
  shipping_method : Option String
  customer_note : Option String
  currency : Option String
deriving DecidableEq

/-- Per-item validation errors, in source order: missing `variant_id`,
missing-or-sub-1 `quantity`, and the client-supplied `unit_price`
rejection. -/
def itemErrors (i : Nat) (it : ItemData) : List String :=
  (if it.variant_id.isNone then
      ["Item " ++ toString i ++ ": Missing variant_id"] else [])
  ++ (match it.quantity with
      | none => ["Item " ++ toString i ++ ": Invalid quantity"]
      | some q => if q < 1 then ["Item " ++ toString i ++ ": Invalid quantity"] else [])
  ++ (if it.unit_price.isSome then
      ["Item " ++ toString i ++ ": Custom prices not allowed"] else [])

def itemsErrors : Nat → List ItemData → List String
  | _, [] => []
  | i, it :: rest => itemErrors i it ++ itemsErrors (i + 1) rest

/-- The nine required address fields, in the order the source lists them. -/
def addrFieldVals (a : AddressData) : List (String × String) :=
  [("first_name", a.first_name), ("last_name", a.last_name),
   ("phone", a.phone), ("email", a.email),
   ("address_line1", a.address_line1), ("city", a.city), ("state", a.state),
   ("postal_code", a.postal_code), ("country", a.country)]

def addrErrors (lbl : String) (a : AddressData) : List String :=
  (addrFieldVals a).filterMap (fun p =>
    if p.2 = "" then some (lbl ++ ": Missing " ++ p.1) else none)

/-- `OrderService.validate_order_data`: returns the collected error list and
the normalized payload (Python returns `(len(errors)==0, errors, normalized)`;
the boolean is redundant). Numeric normalization is the identity here since
payload numbers are already `Rat`. -/
def validate_order_data (data : OrderData) : List String × OrderData :=
  let e1 :=
    (if data.items.isNone then ["Missing required field: items"] else [])
    ++ (if data.shipping_address.isNone then
          ["Missing required field: shipping_address"] else [])
    ++ (if data.payment_method.isNone then
          ["Missing required field: payment_method"] else [])
  let e2 :=
    match data.items with
    | none => []
    | some its =>
        if its = [] then ["Order must contain at least one item"]
        else itemsErrors 0 its
  let e3 :=
    match data.shipping_address with
    | none => []
    | some a => addrErrors "Shipping address" a
  let e4 :=
    match data.billing_address, data.use_separate_billing.getD false with
    | some b, true => addrErrors "Billing address" b
    | _, _ => []
  let nd := { data with
    use_separate_billing :=
      some (data.use_separate_billing.getD data.billing_address.isSome) }
  (e1 ++ e2 ++ e3 ++ e4, nd)

/-- The four guest contact fields of a (normalized) payload, with their
names. -/
def guestFieldVals (nd : OrderData) : List (String × String) :=
  [("guest_email", nd.guest_email), ("guest_first_name", nd.guest_first_name),
   ("guest_last_name", nd.guest_last_name), ("guest_phone", nd.guest_phone)]

/-- `user and user.is_authenticated` as the services test it. -/
def isAuth (user : Option UserRec) : Bool :=
  match user with
  | some u => u.is_authenticated
  | none => false

/-- The user/guest consistency stage of `create_order_from_data`:
authenticated users must supply no guest field; guests must supply all
four. -/
def checkUserGuest (nd : OrderData) (user : Option UserRec) :
    Except OrderError Unit :=
  if isAuth user then
    let provided := (guestFieldVals nd).filterMap (fun p =>
      if p.2 ≠ "" then some p.1 else none)
    if provided ≠ [] then
      .error (.validationError
        ("Authenticated users should not provide guest fields: "
          ++ String.intercalate ", " provided))
    else .ok ()
  else
    let missing := (guestFieldVals nd).filterMap (fun p =>
      if p.2 = "" then some p.1 else none)
    if missing ≠ [] then
      .error (.validationError
        ("Guest checkout requires all guest fields. Missing: "
          ++ String.intercalate ", " missing))
    else .ok ()

/-- The reuse lookup of `OrderService._create_or_get_address`: authenticated
users reuse an existing address matching the (user, type, name, line1, city,
country, postal code) fingerprint. -/
def findReusableAddress (st : Store) (d : AddressData)
    (user : Option UserRec) (atype : String) : Option Address :=
  match user with
  | some u =>
      if u.is_authenticated then
        st.addresses.find? (fun x =>
          x.user = some u.id ∧ x.address_type = atype
          ∧ x.first_name = d.first_name ∧ x.last_name = d.last_name
          ∧ x.address_line1 = d.address_line1 ∧ x.city = d.city
          ∧ x.country = d.country ∧ x.postal_code = d.postal_code)
      else none
  | none => none

/-- `OrderService._create_or_get_address`: reuse a matching address for
authenticated users; otherwise (and always for guests) create a fresh row
through `Address.save`. Returns the resolved address and the updated
store. -/
def create_or_get_address (st : Store) (d : AddressData)
    (user : Option UserRec) (atype : String) : Address × Store :=
  match findReusableAddress st d user atype with
  | some a => (a, st)
  | none =>
      let a : Address :=
        { id := st.next_id
          user := match user with | some u => some u.id | none => none
          address_type := atype
          first_name := d.first_name, last_name := d.last_name
          company := d.company, phone := d.phone, email := d.email
          address_line1 := d.address_line1, address_line2 := d.address_line2
          city := d.city, state := d.state, postal_code := d.postal_code
          country := d.country, instructions := d.instructions
          is_default := d.is_default, is_active := true }
      (a, { st with addresses := addressSave st.addresses a,
                    next_id := st.next_id + 1 })

/-- Variant lookup used by the item loop:
`ProductVariant.objects.get(id=..., is_active=True, product__status="published")`. -/
def findVariant (vs : List ProductVariant) (vid : Nat) :
    Option ProductVariant :=
  vs.find? (fun v => v.id = vid ∧ v.is_active ∧ v.product_status = "published")

/-- The message of the insufficient-stock `ValidationError` raised by
`create_order_from_data`: it names the SKU, the available stock and the
requested quantity. -/
def insufficientStockMsg (sku : String) (available requested : Nat) : String :=
  "Insufficient stock for " ++ sku ++ ". Available: " ++ toString available
    ++ ", Requested: " ++ toString requested

/-- One resolved line item as accumulated by the item loop (Python's
`order_items_data` entries, with the prefetched variant object). -/
structure ResolvedItem where
  variant : ProductVariant
  quantity : Nat
  unit_price : Rat
  product_title : String
  product_slug : String
  variant_attributes : List (String × String)
  sku : String
deriving DecidableEq

/-- The `for item_data in items` loop of `create_order_from_data`: look up
the variant (active, published parent), check stock, server-compute the unit
price from the discounted price unless the payload carried one, and
accumulate the subtotal. -/
def resolveItems (vs : List ProductVariant) (acc : Rat) :
    List ItemData → Except OrderError (List ResolvedItem × Rat)
  | [] => .ok ([], acc)
  | it :: rest =>
    match findVariant vs (it.variant_id.getD 0) with
    | none =>
        .error (.validationError
          ("Product variant not found: " ++ toString (it.variant_id.getD 0)))
    | some v =>
        let quantity := it.quantity.getD 1
        if v.stock < quantity then
          .error (.validationError (insufficientStockMsg v.sku v.stock quantity))
        else
          let unit_price :=
            match it.unit_price with
            | some p => p
            | none => v.discounted_price
          match resolveItems vs (acc + unit_price * (quantity : Rat)) rest with
          | .error e => .error e
          | .ok (rs, sub) =>
              .ok ({ variant := v, quantity := quantity, unit_price := unit_price
                     product_title := v.product_title
                     product_slug := v.product_slug
                     variant_attributes := v.attributes
                     sku := v.sku } :: rs, sub)

/-- `Order.objects.create` followed by the database `UNIQUE` constraint on
`order_number`: run `Order.save` (which generates the number when absent),
then fail with a uniqueness violation if an existing row already carries the
number, else insert. -/
def insertOrder (st : Store) (date_str rand_str : String) (o : Order) :
    Except OrderError (Store × Order) :=
  let o2 := Order.save date_str rand_str o
  if st.orders.any (fun x => x.order_number = o2.order_number) then
    .error (.uniquenessViolation "order_number")
  else
    .ok ({ st with orders := st.orders ++ [o2] }, o2)

/-- The item-creation half of `create_order_from_data`: create each
`OrderItem` (through `OrderItem.save`) and reduce the prefetched variant
object's stock, writing its new stock back to the store row. -/
def createItems (st : Store) (order_id : Nat) :
    List ResolvedItem → Except OrderError (Store × List OrderItem)
  | [] => .ok (st, [])
  | r :: rest =>
      let it0 : OrderItem :=
        { id := st.next_id, order_id := order_id, variant := some r.variant.id
          product_title := r.product_title, product_slug := r.product_slug
          variant_attributes := r.variant_attributes, sku := r.sku
          unit_price := r.unit_price, discount_amount := 0
          quantity := r.quantity, total_price := 0 }
      let it := OrderItem.save (some r.variant) it0
      match r.variant.reduce_stock r.quantity with
      | .error e => .error e
      | .ok v' =>
          let st1 := { st with
            orderItems := st.orderItems ++ [it]
            variants := st.variants.map (fun x => if x.id = v'.id then v' else x)
            next_id := st.next_id + 1 }
          match createItems st1 order_id rest with
          | .error e => .error e
          | .ok (st2, its) => .ok (st2, it :: its)

/-- `ensure_decimal`: `None` becomes `0.00`, a number stays itself. -/
def ensure_decimal (v : Option Rat) : Rat := v.getD 0

/-- The address-resolution step of `create_order_from_data`: resolve the
shipping address, and the billing address only when `use_separate_billing`
is set and billing data is present, else billing = shipping. Returns
(shipping, billing, store). -/
def resolveAddresses (st : Store) (nd : OrderData) (user : Option UserRec) :
    Address × Address × Store :=
  let s1 :=
    create_or_get_address st (nd.shipping_address.getD emptyAddressData)
      user "shipping"
  if nd.use_separate_billing.getD false ∧ nd.billing_address.isSome then
    let s2 :=
      create_or_get_address s1.2 (nd.billing_address.getD emptyAddressData)
        user "billing"
    (s1.1, s2.1, s2.2)
  else (s1.1, s1.1, s1.2)

/-- `OrderService.create_order_from_data`: the whole transactional
order-creation sequence. `date_str`/`rand_str` feed order-number
generation. -/
def create_order_from_data (st : Store) (data : OrderData)
    (user : Option UserRec) (date_str rand_str : String) :
    Except OrderError (Store × Order × List OrderItem) :=
  match validate_order_data data with
  | (e :: es, _) =>
      .error (.validationError
        ("Invalid order data: " ++ String.intercalate ", " (e :: es)))
  | ([], nd) =>
    match checkUserGuest nd user with
    | .error e => .error e
    | .ok () =>
      let resolvedAddr := resolveAddresses st nd user
      let shipping := resolvedAddr.1
      let billing := resolvedAddr.2.1
      let st2 := resolvedAddr.2.2
      match resolveItems st2.variants 0 (nd.items.getD []) with
      | .error e => .error e
      | .ok (resolved, subtotal) =>
        let shipping_cost := ensure_decimal nd.shipping_cost
        let tax_rate := ensure_decimal nd.tax_rate
        let discount_amount := ensure_decimal nd.discount_amount
        let tax_amount := (subtotal * tax_rate) / (100 : Rat)
        let newOrder : Order :=
          { id := st2.next_id
            user := match user with | some u => some u.id | none => none
            guest_email := nd.guest_email
            guest_first_name := nd.guest_first_name
            guest_last_name := nd.guest_last_name
            guest_phone := nd.guest_phone
            order_number := ""
            status := "pending"
            payment_status := "pending"
            payment_method := nd.payment_method.getD ""
            shipping_address_id := shipping.id
            billing_address_id := billing.id
            subtotal := subtotal, shipping_cost := shipping_cost
            tax_amount := tax_amount, tax_rate := tax_rate
            discount_amount := discount_amount, total := 0
            currency := nd.currency.getD "USD"
            shipping_method := nd.shipping_method.getD ""
            payment_intent_id := "", payment_receipt_url := ""
            customer_note := nd.customer_note.getD ""
            admin_note := "", confirmed_at := none, cancelled_at := none }
        match insertOrder { st2 with next_id := st2.next_id + 1 }
            date_str rand_str newOrder with
        | .error e => .error e
        | .ok (st3, order) =>
          match createItems st3 order.id resolved with
          | .error e => .error e
          | .ok (st4, items) => .ok (st4, order, items)

/-- `create_order_from_data` under `transaction.atomic`: an error leaves the
store untouched (full rollback), success commits the new store. -/
def runCreateOrder (st : Store) (data : OrderData) (user : Option UserRec)
    (date_str rand_str : String) :
    Store × Except OrderError (Order × List OrderItem) :=
  match create_order_from_data st data user date_str rand_str with
  | .ok (st', o, its) => (st', .ok (o, its))
  | .error e => (st, .error e)

/-- The lookup key the lifecycle operations accept: either the primary id
(a UUID-shaped string in Python, which can never equal an order number) or
the human-readable order number. -/
inductive OrderKey where
  | byId (id : Nat)
  | byNumber (s : String)
deriving DecidableEq

/-- `Order.objects.get(id=...)` with the fallback
`Order.objects.get(order_number=...)`. -/
def findOrder (st : Store) : OrderKey → Option Order
  | .byId n => st.orders.find? (fun o => o.id = n)
  | .byNumber s => st.orders.find? (fun o => o.order_number = s)

/-- Replace the stored row of an order (a Django `save` on an existing
row). -/
def replaceOrder (os : List Order) (o : Order) : List Order :=
  os.map (fun x => if x.id = o.id then o else x)

/-- The items of an order, in stored (id) order — `order.items.all()`. -/
def itemsOf (st : Store) (oid : Nat) : List OrderItem :=
  st.orderItems.filter (fun it => it.order_id = oid)

/-- Bump a variant row's stock in place — `variant.increase_stock(q)`. -/
def increaseStock (vs : List ProductVariant) (vid : Nat) (q : Nat) :
    List ProductVariant :=
  vs.map (fun v => if v.id = vid then v.increase_stock q else v)

/-- The stock-restoration loop of `cancel_order`: for each item with a
surviving variant reference, increment that variant's stock by the item's
quantity. -/
def restockAll : List OrderItem → List ProductVariant → List ProductVariant
  | [], vs => vs
  | it :: rest, vs =>
      restockAll rest
        (match it.variant with
         | some vid => increaseStock vs vid it.quantity
         | none => vs)

/-- The stock of the variant row with id `vid`, if present. -/
def stockOf (vs : List ProductVariant) (vid : Nat) : Option Nat :=
  (vs.find? (fun v => v.id = vid)).map (fun v => v.stock)

/-- The audit note `cancel_order` writes when a reason is supplied. -/
def cancelNote (user : Option UserRec) (reason : String) : String :=
  "Cancelled by " ++ (if user.isSome then "user" else "system") ++ ": " ++ reason

/-- The `cancel_order` permission gate: `if user and not user.is_staff:
if order.user != user:`. -/
def permissionBlocked (user : Option UserRec) (order : Order) : Bool :=
  match user with
  | some u => ¬ u.is_staff ∧ order.user ≠ some u.id
  | none => false

/-- `OrderService.cancel_order`: look the order up, check ownership (only
when an actor was supplied), check `can_cancel`, then atomically restore
stock, set status `cancelled`, stamp `cancelled_at`, write the audit note
when a reason is given, and save. -/
def cancel_order (st : Store) (key : OrderKey) (user : Option UserRec)
    (reason : String) (now : Nat) (date_str rand_str : String) :
    Except OrderError (Store × Order) :=
  match findOrder st key with
  | none => .error (.validationError "Order not found")
  | some order =>
    if permissionBlocked user order then
      .error (.permissionDenied "You don't have permission to cancel this order")
    else if ¬ order.can_cancel then
      .error (.validationError "Order cannot be cancelled in its current state")
    else
      let variants' := restockAll (itemsOf st order.id) st.variants
      let order' := { order with
        status := "cancelled"
        admin_note := if reason ≠ "" then cancelNote user reason else order.admin_note
        cancelled_at := some now }
      let order2 := Order.save date_str rand_str order'
      let st' := { st with orders := replaceOrder st.orders order2,
                           variants := variants' }
      .ok (st', order2)

/-- `OrderService.update_payment_status`: look up, validate the payment
status against the enum, set it (plus intent id / receipt url when given),
auto-advance `pending → confirmed` with a `confirmed_at` stamp when the
payment became `paid`, and save. -/
def update_payment_status (st : Store) (key : OrderKey)
    (payment_status : String) (payment_intent_id : String)
    (payment_receipt_url : String) (now : Nat) (date_str rand_str : String) :
    Except OrderError (Store × Order) :=
  match findOrder st key with
  | none => .error (.validationError "Order not found")
  | some order =>
    if payment_status ∉ paymentStatusChoices then
      .error (.validationError ("Invalid payment status: " ++ payment_status))
    else
      let order := { order with payment_status := payment_status }
      let order :=
        if payment_intent_id ≠ "" then
          { order with payment_intent_id := payment_intent_id } else order
      let order :=
        if payment_receipt_url ≠ "" then
          { order with payment_receipt_url := payment_receipt_url } else order
      let order :=
        if payment_status = "paid" ∧ order.status = "pending" then
          { order with status := "confirmed", confirmed_at := some now }
        else order
      let order2 := Order.save date_str rand_str order
      .ok ({ st with orders := replaceOrder st.orders order2 }, order2)

/-! ### Concrete fixtures for scenario theorems and witnesses -/

/-- The `GEN-BLK-01` variant of the pricing scenario: stock 3, price 20.00,
discount 2.00, active, parent product published. -/
def genBlkVariant : ProductVariant :=
  { id := 1, sku := "GEN-BLK-01", price := 20, discount_amount := 2, stock := 3,
    is_active := true, product_status := "published",
    product_title := "Generic Tee", product_slug := "generic-tee",
    attributes := [("color", "black")] }

def scenarioStore : Store :=
  { variants := [genBlkVariant], orders := [], orderItems := [],
    addresses := [], next_id := 10 }

def scenarioShipping : AddressData :=
  { first_name := "Ama", last_name := "Mensah", company := "", phone := "0200000000",
    email := "ama@example.com", address_line1 := "1 High St", address_line2 := "",
    city := "Accra", state := "GA", postal_code := "00233", country := "GH",
    instructions := "", is_default := false }

/-- A guest order payload for one line item of quantity 2 on variant 1. -/
def scenarioPayload : OrderData :=
  { items := some [{ variant_id := some 1, quantity := some 2, unit_price := none }],
    shipping_address := some scenarioShipping, billing_address := none,
    payment_method := some "credit_card", use_separate_billing := none,
    guest_email := "ama@example.com", guest_first_name := "Ama",
    guest_last_name := "Mensah", guest_phone := "0200000000",
    shipping_cost := none, tax_rate := none, discount_amount := none,
    shipping_method := none, customer_note := none, currency := none }

/-- The pricing-scenario result (guest checkout, date/random fixed). -/
def scenarioResult : Except OrderError (Store × Order × List OrderItem) :=
  create_order_from_data scenarioStore scenarioPayload none "20260101" "5678"

/-- The same payload with a caller-supplied unit price. -/
def scenarioPayloadPriced : OrderData :=
  { scenarioPayload with
    items := some [{ variant_id := some 1, quantity := some 2, unit_price := some 10 }] }

/-- The insufficiency scenario's variant: stock 2. -/
def lowStockVariant : ProductVariant :=
  { genBlkVariant with stock := 2 }

/-- The insufficiency scenario: stock 2, requested 5. -/
def lowStockStore : Store :=
  { scenarioStore with variants := [lowStockVariant] }

def overPayload : OrderData :=
  { scenarioPayload with
    items := some [{ variant_id := some 1, quantity := some 5, unit_price := none }] }

/-- A reusable stored guest address row. -/
def fixtureAddress : Address :=
  { id := 5, user := none, address_type := "shipping", first_name := "Ama",
    last_name := "Mensah", company := "", phone := "0200000000",
    email := "ama@example.com", address_line1 := "1 High St", address_line2 := "",
    city := "Accra", state := "GA", postal_code := "00233", country := "GH",
    instructions := "", is_default := false, is_active := true }

/-- A stored confirmed guest order with two items (quantities 1 and 3) on two
distinct variants, for the cancellation scenario. -/
def confirmedOrder : Order :=
  { id := 100, user := none, guest_email := "ama@example.com",
    guest_first_name := "Ama", guest_last_name := "Mensah",
    guest_phone := "0200000000", order_number := "ORD202601010001",
    status := "confirmed", payment_status := "pending",
    payment_method := "credit_card", shipping_address_id := 5,
    billing_address_id := 5, subtotal := 40, shipping_cost := 0,
    tax_amount := 0, tax_rate := 0, discount_amount := 0, total := 40,
    currency := "USD", shipping_method := "", payment_intent_id := "",
    payment_receipt_url := "", customer_note := "", admin_note := "",
    confirmed_at := some 1, cancelled_at := none }

def cancelVariantA : ProductVariant :=
  { id := 1, sku := "CAN-A", price := 10, discount_amount := 0, stock := 7,
    is_active := true, product_status := "published",
    product_title := "A", product_slug := "a", attributes := [] }

def cancelVariantB : ProductVariant :=
  { cancelVariantA with id := 2, sku := "CAN-B", stock := 4 }

def cancelItemA : OrderItem :=
  { id := 200, order_id := 100, variant := some 1, product_title := "A",
    product_slug := "a", variant_attributes := [], sku := "CAN-A",
    unit_price := 10, discount_amount := 0, quantity := 1, total_price := 10 }

def cancelItemB : OrderItem :=
  { cancelItemA with
    id := 201, variant := some 2, sku := "CAN-B",
    quantity := 3, total_price := 30 }

def cancelStore : Store :=
  { variants := [cancelVariantA, cancelVariantB], orders := [confirmedOrder],
    orderItems := [cancelItemA, cancelItemB], addresses := [fixtureAddress],
    next_id := 300 }

/-- A pending order for the payment-status scenario. -/
def pendingOrder : Order :=
  { confirmedOrder with
    id := 101, order_number := "ORD202601010002",
    status := "pending", confirmed_at := none }

def paymentStore : Store :=
  { cancelStore with orders := [pendingOrder] }

/-- An order owned by user 8, for the permission scenarios. -/
def ownedOrder : Order :=
  { confirmedOrder with
    id := 102, order_number := "ORD202601010003",
    user := some 8 }

def ownedStore : Store :=
  { cancelStore with orders := [ownedOrder] }

def strangerUser : UserRec :=
  { id := 9, is_authenticated := true, is_staff := false }

/-- A store already holding the order number that generation will produce,
for the order-number collision scenario. -/
def collisionStore : Store :=
  { cancelStore with
    orders := [{ confirmedOrder with
                 id := 104, order_number := "ORD202601011234" }] }

def freshOrder : Order :=
  { confirmedOrder with id := 105, order_number := "" }

/-- Two guest (null-user) default shipping addresses. -/
def guestDefault1 : Address :=
  { fixtureAddress with id := 1, is_default := true }

def guestDefault2 : Address :=
  { fixtureAddress with id := 2, is_default := true }

/-- A guest payload with a missing (empty) guest email. -/
def guestMissingPayload : OrderData :=
  { scenarioPayload with guest_email := "" }

/-- The `is_default` predicate of a `(user, type)` pair, and the number of
default rows the pair holds. -/
def defaultCount (addrs : List Address) (u : Nat) (t : String) : Nat :=
  addrs.countP (fun a => a.user = some u ∧ a.address_type = t ∧ a.is_default)

/-- The per-(user, type) uniqueness invariant, restricted to addresses with
a non-null user. -/
def atMostOneDefault (addrs : List Address) : Prop :=
  ∀ u t, defaultCount addrs u t ≤ 1

/-- The number of default addresses of a given type among guest (null-user)
addresses. -/
def defaultCountNull (addrs : List Address) (t : String) : Nat :=
  addrs.countP (fun a => a.user = none ∧ a.address_type = t ∧ a.is_default)

/-- Decidable per-item success of the resolution loop: the variant is found
(active, published) and has sufficient stock. -/
def itemOk (vs : List ProductVariant) (it : ItemData) : Bool :=
  match findVariant vs (it.variant_id.getD 0) with
  | some v => ¬ (v.stock < it.quantity.getD 1)
  | none => false

end EStore

namespace EStore

/-! ### Theorems -/

/-- C3: after every persist of an order, `total` equals
`subtotal + shipping_cost + tax_amount - discount_amount` exactly, and the
value the `total` field held before the save is irrelevant: `Order.save`
recomputes it from the other four monetary fields. -/
theorem C3_total_recomputed_on_save (date_str rand_str : String) (o : Order)
    (t : Rat) :
    (Order.save date_str rand_str { o with total := t }).total
        = (Order.save date_str rand_str { o with total := t }).subtotal
          + (Order.save date_str rand_str { o with total := t }).shipping_cost
          + (Order.save date_str rand_str { o with total := t }).tax_amount
          - (Order.save date_str rand_str { o with total := t }).discount_amount
    ∧ Order.save date_str rand_str { o with total := t }
        = Order.save date_str rand_str o := by
  constructor
  · by_cases h : o.order_number = "" <;> simp [Order.save, h]
  · by_cases h : o.order_number = "" <;> simp [Order.save, h]

/-- C7: after every save of an order item,
`total_price = (unit_price - discount_amount) * quantity` holds exactly, for
every quantity at least 1 and non-negative unit price and discount. -/
theorem C7_item_total_price (variantRow : Option ProductVariant)
    (it : OrderItem) (hq : 1 ≤ it.quantity) (hu : 0 ≤ it.unit_price)
    (hd : 0 ≤ it.discount_amount) :
    (OrderItem.save variantRow it).total_price
      = ((OrderItem.save variantRow it).unit_price
          - (OrderItem.save variantRow it).discount_amount)
        * ((OrderItem.save variantRow it).quantity : Rat) := by
  unfold OrderItem.save
  split
  · cases variantRow <;> simp
  · simp

unseal Rat.sub Rat.add Rat.mul Rat.inv in
theorem C7_item_total_price_witness :
    (OrderItem.save none cancelItemA).total_price
      = ((OrderItem.save none cancelItemA).unit_price
          - (OrderItem.save none cancelItemA).discount_amount)
        * ((OrderItem.save none cancelItemA).quantity : Rat) :=
  C7_item_total_price none cancelItemA (by decide) (by decide) (by decide)

unseal Rat.sub Rat.add Rat.mul Rat.inv in
/-- C2: the pricing scenario — variant `GEN-BLK-01` with stock 3, price
20.00, discount 2.00; a guest order of quantity 2 yields the server-computed
unit price 18.00 and subtotal 36.00, leaves stock 1 after creation, and the
same payload with a caller-supplied `unit_price` is rejected as a validation
error. -/
theorem C2_pricing_scenario :
    (scenarioResult.toOption.map fun r => r.2.1.subtotal) = some 36
  ∧ (scenarioResult.toOption.map fun r => r.2.2.map fun i => i.unit_price)
      = some [18]
  ∧ (scenarioResult.toOption.map fun r => stockOf r.1.variants 1)
      = some (some 1)
  ∧ create_order_from_data scenarioStore scenarioPayloadPriced none
        "20260101" "5678"
      = .error (.validationError
          "Invalid order data: Item 0: Custom prices not allowed") :=
  ⟨by decide, by decide, by decide, by decide⟩

/-- C6 counterexample: persisting an order without an order number while
another order already holds the number that generation produces makes the
save fail with a uniqueness violation — no new number is regenerated. -/
theorem C6_counterexample :
    insertOrder collisionStore "20260101" "1234" freshOrder
      = .error (.uniquenessViolation "order_number") := by decide

/-- C6 (amended): when an order is persisted without an order number, the
number is generated as `ORD` + date string + random suffix, with no
collision check: if an existing order already carries the generated number,
the save fails with a uniqueness violation instead of regenerating. -/
theorem C6_number_generated_no_regeneration (st : Store)
    (date_str rand_str : String) (o : Order) (ho : o.order_number = "")
    (hc : (st.orders.any fun x =>
        x.order_number = generate_order_number date_str rand_str) = true) :
    (Order.save date_str rand_str o).order_number
        = generate_order_number date_str rand_str
    ∧ insertOrder st date_str rand_str o
        = .error (.uniquenessViolation "order_number") := by
  have h1 : (Order.save date_str rand_str o).order_number
      = generate_order_number date_str rand_str := by
    unfold Order.save
    rw [if_pos ho]
  refine ⟨h1, ?_⟩
  unfold insertOrder
  simp only [h1]
  rw [if_pos hc]

theorem C6_number_generated_no_regeneration_witness :
    (Order.save "20260101" "1234" freshOrder).order_number
        = generate_order_number "20260101" "1234"
    ∧ insertOrder collisionStore "20260101" "1234" freshOrder
        = .error (.uniquenessViolation "order_number") :=
  C6_number_generated_no_regeneration collisionStore "20260101" "1234"
    freshOrder (by decide) (by decide)

/-- C9 counterexample: saving two guest (null-user) shipping addresses that
are both flagged default leaves BOTH default — the clearing is skipped when
the user is null, so the at-most-one-default invariant fails for the
(null, shipping) pair. -/
theorem C9_counterexample :
    1 < defaultCountNull
        (addressSave (addressSave [] guestDefault1) guestDefault2)
        "shipping" := by decide

/-- Clearing defaults can only turn the `is_default` flag off, so it never
increases a pair's default count. -/
theorem countP_default_clear_le (u : Nat) (t : String) (a : Address)
    (l : List Address) :
    (l.map fun x =>
        if x.user = a.user ∧ x.address_type = a.address_type ∧ x.is_default then
          { x with is_default := false }
        else x).countP
      (fun x => x.user = some u ∧ x.address_type = t ∧ x.is_default)
    ≤ l.countP (fun x => x.user = some u ∧ x.address_type = t ∧ x.is_default) := by
  rw [List.countP_map]
  apply List.countP_mono_left
  intro x _ hx
  simp only [Function.comp] at hx
  revert hx
  split
  · intro hx
    simp at hx
  · intro hx
    exact hx

theorem countP_singleton_le (p : Address → Bool) (a : Address) :
    ([a].countP p) ≤ 1 :=
  le_trans (List.countP_le_length p) (by simp)

/-- C9 (amended): for every (user, type) pair with a NON-NULL user, at most
one default address exists after any address save that starts from a state
satisfying the invariant: saving a default address clears the flag on every
other address of the same user and type. For guest addresses (null user)
the clearing is skipped, so the invariant does not extend to them. -/
theorem C9_default_unique_preserved (addrs : List Address) (a : Address)
    (h : atMostOneDefault addrs) : atMostOneDefault (addressSave addrs a) := by
  intro u t
  have hsub : defaultCount (addrs.filter fun x => x.id ≠ a.id) u t
      ≤ defaultCount addrs u t :=
    List.Sublist.countP_le _ (List.filter_sublist _)
  have hmain := h u t
  unfold defaultCount at *
  simp only [addressSave, List.countP_append]
  by_cases hc : a.is_default = true ∧ a.user.isSome = true
  · rw [if_pos hc]
    by_cases hpair : a.user = some u ∧ a.address_type = t
    · have h0 : ((addrs.filter fun x => x.id ≠ a.id).map fun x =>
          if x.user = a.user ∧ x.address_type = a.address_type ∧ x.is_default then
            { x with is_default := false }
          else x).countP
            (fun x => x.user = some u ∧ x.address_type = t ∧ x.is_default) = 0 := by
        rw [List.countP_eq_zero]
        intro x' hx'
        rcases List.mem_map.1 hx' with ⟨x, hx, rfl⟩
        split
        · simp
        · rename_i hm
          simp only [decide_eq_true_eq, not_and]
          intro h1 h2 h3
          exact absurd ⟨h1.trans hpair.1.symm, h2.trans hpair.2.symm, h3⟩ hm
      rw [h0]
      have h1 := countP_singleton_le
        (fun x => x.user = some u ∧ x.address_type = t ∧ x.is_default) a
      omega
    · have h1 : ([a].countP fun x =>
          x.user = some u ∧ x.address_type = t ∧ x.is_default) = 0 := by
        rw [List.countP_eq_zero]
        intro x hx
        simp only [List.mem_singleton] at hx
        subst hx
        simp only [decide_eq_true_eq, not_and]
        intro h1 h2 _
        exact hpair ⟨h1, h2⟩
      have h2 := countP_default_clear_le u t a (addrs.filter fun x => x.id ≠ a.id)
      omega
  · rw [if_neg hc]
    have ha : ([a].countP fun x =>
        x.user = some u ∧ x.address_type = t ∧ x.is_default) = 0 := by
      rw [List.countP_eq_zero]
      intro x hx
      simp only [List.mem_singleton] at hx
      subst hx
      simp only [decide_eq_true_eq, not_and]
      intro h1 _ h3
      exact hc ⟨h3, by simp [h1]⟩
    omega

theorem C9_default_unique_preserved_witness :
    atMostOneDefault (addressSave [] guestDefault1) :=
  C9_default_unique_preserved [] guestDefault1
    (fun u t => by simp [defaultCount])

/-- Normalization only touches `use_separate_billing`: the guest contact
fields of the normalized payload are those of the input payload. -/
theorem validate_guest_email (data : OrderData) :
    (validate_order_data data).2.guest_email = data.guest_email := rfl

theorem validate_guest_first (data : OrderData) :
    (validate_order_data data).2.guest_first_name = data.guest_first_name := rfl

theorem validate_guest_last (data : OrderData) :
    (validate_order_data data).2.guest_last_name = data.guest_last_name := rfl

theorem validate_guest_phone (data : OrderData) :
    (validate_order_data data).2.guest_phone = data.guest_phone := rfl

/-- C5: user/guest exclusivity — an authenticated request with any guest
contact field populated fails with a ValidationError, and a guest request
with any of the four guest fields missing fails with a ValidationError; in
both cases the store is untouched. -/
theorem C5_user_guest_exclusivity (st : Store) (data : OrderData)
    (user : Option UserRec) (date_str rand_str : String) :
    (isAuth user = true →
      (data.guest_email ≠ "" ∨ data.guest_first_name ≠ "" ∨
       data.guest_last_name ≠ "" ∨ data.guest_phone ≠ "") →
      ∃ m, (runCreateOrder st data user date_str rand_str).2
        = .error (.validationError m))
  ∧ (isAuth user = false →
      (data.guest_email = "" ∨ data.guest_first_name = "" ∨
       data.guest_last_name = "" ∨ data.guest_phone = "") →
      ∃ m, (runCreateOrder st data user date_str rand_str).2
        = .error (.validationError m)) := by
  rcases hv : validate_order_data data with ⟨errs, nd⟩
  have hnd : nd = (validate_order_data data).2 := by rw [hv]
  have he : nd.guest_email = data.guest_email := by
    rw [hnd]; exact validate_guest_email data
  have hf : nd.guest_first_name = data.guest_first_name := by
    rw [hnd]; exact validate_guest_first data
  have hl : nd.guest_last_name = data.guest_last_name := by
    rw [hnd]; exact validate_guest_last data
  have hp : nd.guest_phone = data.guest_phone := by
    rw [hnd]; exact validate_guest_phone data
  cases errs with
  | cons e es =>
    constructor
    · intro _ _
      refine ⟨"Invalid order data: " ++ String.intercalate ", " (e :: es), ?_⟩
      simp only [runCreateOrder, create_order_from_data, hv]
    · intro _ _
      refine ⟨"Invalid order data: " ++ String.intercalate ", " (e :: es), ?_⟩
      simp only [runCreateOrder, create_order_from_data, hv]
  | nil =>
    constructor
    · intro hauth hone
      have hne : ((guestFieldVals nd).filterMap fun p =>
          if p.2 ≠ "" then some p.1 else none) ≠ [] := by
        intro h0
        rw [List.filterMap_eq_nil_iff] at h0
        rcases hone with h | h | h | h
        · have := h0 ("guest_email", nd.guest_email) (by simp [guestFieldVals])
          rw [he] at this
          rw [if_pos h] at this
          exact Option.noConfusion this
        · have := h0 ("guest_first_name", nd.guest_first_name) (by simp [guestFieldVals])
          rw [hf] at this
          rw [if_pos h] at this
          exact Option.noConfusion this
        · have := h0 ("guest_last_name", nd.guest_last_name) (by simp [guestFieldVals])
          rw [hl] at this
          rw [if_pos h] at this
          exact Option.noConfusion this
        · have := h0 ("guest_phone", nd.guest_phone) (by simp [guestFieldVals])
          rw [hp] at this
          rw [if_pos h] at this
          exact Option.noConfusion this
      have hg : checkUserGuest nd user = .error (.validationError
          ("Authenticated users should not provide guest fields: "
            ++ String.intercalate ", " ((guestFieldVals nd).filterMap fun p =>
                if p.2 ≠ "" then some p.1 else none))) := by
        simp only [checkUserGuest, hauth, if_true, if_pos hne]
      refine ⟨"Authenticated users should not provide guest fields: "
          ++ String.intercalate ", " ((guestFieldVals nd).filterMap fun p =>
              if p.2 ≠ "" then some p.1 else none), ?_⟩
      simp only [runCreateOrder, create_order_from_data, hv, hg]
    · intro hauth hone
      have hne : ((guestFieldVals nd).filterMap fun p =>
          if p.2 = "" then some p.1 else none) ≠ [] := by
        intro h0
        rw [List.filterMap_eq_nil_iff] at h0
        rcases hone with h | h | h | h
        · have := h0 ("guest_email", nd.guest_email) (by simp [guestFieldVals])
          rw [he] at this
          rw [if_pos h] at this
          exact Option.noConfusion this
        · have := h0 ("guest_first_name", nd.guest_first_name) (by simp [guestFieldVals])
          rw [hf] at this
          rw [if_pos h] at this
          exact Option.noConfusion this
        · have := h0 ("guest_last_name", nd.guest_last_name) (by simp [guestFieldVals])
          rw [hl] at this
          rw [if_pos h] at this
          exact Option.noConfusion this
        · have := h0 ("guest_phone", nd.guest_phone) (by simp [guestFieldVals])
          rw [hp] at this
          rw [if_pos h] at this
          exact Option.noConfusion this
      have hg : checkUserGuest nd user = .error (.validationError
          ("Guest checkout requires all guest fields. Missing: "
            ++ String.intercalate ", " ((guestFieldVals nd).filterMap fun p =>
                if p.2 = "" then some p.1 else none))) := by
        simp only [checkUserGuest, hauth, if_pos hne]
        simp
      refine ⟨"Guest checkout requires all guest fields. Missing: "
          ++ String.intercalate ", " ((guestFieldVals nd).filterMap fun p =>
              if p.2 = "" then some p.1 else none), ?_⟩
      simp only [runCreateOrder, create_order_from_data, hv, hg]
theorem C5_user_guest_exclusivity_witness :
    (∃ m, (runCreateOrder scenarioStore scenarioPayload (some strangerUser)
        "20260101" "5678").2 = .error (.validationError m))
  ∧ (∃ m, (runCreateOrder scenarioStore guestMissingPayload none
        "20260101" "5678").2 = .error (.validationError m)) :=
  ⟨(C5_user_guest_exclusivity scenarioStore scenarioPayload
      (some strangerUser) "20260101" "5678").1 (by decide) (by decide),
   (C5_user_guest_exclusivity scenarioStore guestMissingPayload none
      "20260101" "5678").2 (by decide) (by decide)⟩

theorem save_payment_status (d r : String) (o : Order) :
    (Order.save d r o).payment_status = o.payment_status := by
  by_cases h : o.order_number = "" <;> simp [Order.save, h]

theorem save_status (d r : String) (o : Order) :
    (Order.save d r o).status = o.status := by
  by_cases h : o.order_number = "" <;> simp [Order.save, h]

theorem save_confirmed_at (d r : String) (o : Order) :
    (Order.save d r o).confirmed_at = o.confirmed_at := by
  by_cases h : o.order_number = "" <;> simp [Order.save, h]

/-- C8: updating the payment status to `paid` on a found order succeeds; it
sets `payment_status` to `paid`, and exactly when the order status was
`pending` it auto-advances the status to `confirmed` and stamps
`confirmed_at`; for any other status the order status and `confirmed_at`
are left unchanged. -/
theorem C8_payment_paid_confirms (st : Store) (key : OrderKey)
    (pid purl : String) (now : Nat) (d r : String) (o : Order)
    (hfind : findOrder st key = some o) :
    ∃ st' o', update_payment_status st key "paid" pid purl now d r
        = .ok (st', o')
      ∧ o'.payment_status = "paid"
      ∧ (o.status = "pending" →
          o'.status = "confirmed" ∧ o'.confirmed_at = some now)
      ∧ (o.status ≠ "pending" →
          o'.status = o.status ∧ o'.confirmed_at = o.confirmed_at) := by
  unfold update_payment_status
  simp only [hfind]
  rw [if_neg (by decide : ¬ ("paid" ∉ paymentStatusChoices))]
  refine ⟨_, _, rfl, ?_, ?_, ?_⟩
  · rw [save_payment_status]
    by_cases h1 : pid ≠ "" <;> by_cases h2 : purl ≠ "" <;>
      by_cases h3 : o.status = "pending" <;>
        simp [h1, h2, h3]
  · intro h3
    rw [save_status, save_confirmed_at]
    by_cases h1 : pid ≠ "" <;> by_cases h2 : purl ≠ "" <;>
      simp [h1, h2, h3]
  · intro h3
    rw [save_status, save_confirmed_at]
    by_cases h1 : pid ≠ "" <;> by_cases h2 : purl ≠ "" <;>
      simp [h1, h2, h3]

theorem C8_payment_paid_confirms_witness :
    ∃ st' o', update_payment_status paymentStore (.byId 101) "paid" "" ""
        77 "20260101" "1234" = .ok (st', o')
      ∧ o'.payment_status = "paid"
      ∧ (pendingOrder.status = "pending" →
          o'.status = "confirmed" ∧ o'.confirmed_at = some 77)
      ∧ (pendingOrder.status ≠ "pending" →
          o'.status = pendingOrder.status
            ∧ o'.confirmed_at = pendingOrder.confirmed_at) :=
  C8_payment_paid_confirms paymentStore (.byId 101) "" "" 77 "20260101"
    "1234" pendingOrder (by decide)

theorem permissionBlocked_none (o : Order) :
    permissionBlocked none o = false := rfl

theorem permissionBlocked_some (u : UserRec) (o : Order) :
    permissionBlocked (some u) o = true
      ↔ (u.is_staff = false ∧ o.user ≠ some u.id) := by
  simp [permissionBlocked]

/-- C10: `cancel_order` checks ownership only when an actor is supplied —
with no actor it can never fail with PermissionDenied — and on a found
order with an actor, PermissionDenied is raised exactly when the actor is
non-staff and not the order owner. -/
theorem C10_permission_only_with_actor (st : Store) (key : OrderKey)
    (reason : String) (now : Nat) (d r : String) :
    (∀ m, cancel_order st key none reason now d r
        ≠ .error (.permissionDenied m))
  ∧ (∀ u o, findOrder st key = some o →
      ((∃ m, cancel_order st key (some u) reason now d r
          = .error (.permissionDenied m))
        ↔ (u.is_staff = false ∧ o.user ≠ some u.id))) := by
  constructor
  · intro m
    unfold cancel_order
    cases hf : findOrder st key with
    | none => simp
    | some o =>
      simp only [permissionBlocked_none, Bool.false_eq_true, if_false]
      split <;> simp
  · intro u o hf
    constructor
    · rintro ⟨m, hm⟩
      unfold cancel_order at hm
      simp only [hf] at hm
      by_cases hb : permissionBlocked (some u) o = true
      · exact (permissionBlocked_some u o).1 hb
      · rw [Bool.not_eq_true] at hb
        rw [hb] at hm
        simp only [Bool.false_eq_true, if_false] at hm
        revert hm
        split <;> simp
    · intro hcond
      unfold cancel_order
      simp only [hf]
      rw [if_pos ((permissionBlocked_some u o).2 hcond)]
      exact ⟨_, rfl⟩

theorem C10_permission_only_with_actor_witness :
    ∃ m, cancel_order ownedStore (.byId 102) (some strangerUser) "" 1
        "20260101" "1234" = .error (.permissionDenied m) :=
  ((C10_permission_only_with_actor ownedStore (.byId 102) "" 1
      "20260101" "1234").2 strangerUser ownedOrder (by decide)).2 (by decide)

theorem create_or_get_address_variants (st : Store) (d : AddressData)
    (user : Option UserRec) (atype : String) :
    (create_or_get_address st d user atype).2.variants = st.variants := by
  unfold create_or_get_address
  split <;> simp

theorem resolveAddresses_variants (st : Store) (nd : OrderData)
    (user : Option UserRec) :
    (resolveAddresses st nd user).2.2.variants = st.variants := by
  unfold resolveAddresses
  split <;> simp [create_or_get_address_variants]

/-- When the item loop reaches a line item whose variant is found but whose
requested quantity exceeds its stock — every earlier item resolving fine —
it fails with the insufficient-stock ValidationError naming the SKU, the
available stock and the requested quantity. -/
theorem resolveItems_insufficient (vs : List ProductVariant) (acc : Rat)
    (pre rest : List ItemData) (bad : ItemData) (v : ProductVariant)
    (hfind : findVariant vs (bad.variant_id.getD 0) = some v)
    (hstock : v.stock < bad.quantity.getD 1)
    (hpre : ∀ it ∈ pre, itemOk vs it = true) :
    resolveItems vs acc (pre ++ bad :: rest)
      = .error (.validationError
          (insufficientStockMsg v.sku v.stock (bad.quantity.getD 1))) := by
  revert hpre
  induction pre generalizing acc with
  | nil =>
    intro _
    simp only [List.nil_append, resolveItems, hfind]
    rw [if_pos hstock]
  | cons it pre ih =>
    intro hpre
    have hok := hpre it (List.mem_cons_self it pre)
    have hrest : ∀ x ∈ pre, itemOk vs x = true :=
      fun x hx => hpre x (List.mem_cons_of_mem _ hx)
    unfold itemOk at hok
    cases hv : findVariant vs (it.variant_id.getD 0) with
    | none =>
      rw [hv] at hok
      simp at hok
    | some w =>
      rw [hv] at hok
      simp only [decide_eq_true_eq] at hok
      simp only [List.cons_append, resolveItems, hv]
      rw [if_neg hok]
      simp only [List.append_eq]
      rw [ih _ hrest]

/-- C1: a payload that passes validation and the user/guest check but
contains a line item requesting more than the variant's stock (all earlier
items resolving fine) makes `create_order_from_data` fail with the
insufficient-stock ValidationError naming the SKU, the available stock and
the requested quantity, and leaves the store — every variant's stock, the
orders and the order items — exactly as it was (transactional rollback). -/
theorem C1_insufficient_stock_aborts (st : Store) (data : OrderData)
    (user : Option UserRec) (d r : String) (nd : OrderData)
    (pre rest : List ItemData) (bad : ItemData) (v : ProductVariant)
    (hval : validate_order_data data = ([], nd))
    (hguest : checkUserGuest nd user = .ok ())
    (hitems : nd.items = some (pre ++ bad :: rest))
    (hpre : ∀ it ∈ pre, itemOk st.variants it = true)
    (hfind : findVariant st.variants (bad.variant_id.getD 0) = some v)
    (hstock : v.stock < bad.quantity.getD 1) :
    runCreateOrder st data user d r
      = (st, .error (.validationError
          (insufficientStockMsg v.sku v.stock (bad.quantity.getD 1)))) := by
  unfold runCreateOrder create_order_from_data
  simp only [hval, hguest, hitems, Option.getD_some, resolveAddresses_variants]
  rw [resolveItems_insufficient st.variants 0 pre rest bad v hfind hstock hpre]

theorem C1_insufficient_stock_aborts_witness :
    runCreateOrder lowStockStore overPayload none "20260101" "5678"
      = (lowStockStore, .error (.validationError
          (insufficientStockMsg lowStockVariant.sku lowStockVariant.stock 5))) :=
  C1_insufficient_stock_aborts lowStockStore overPayload none
    "20260101" "5678" (validate_order_data overPayload).2
    [] [] { variant_id := some 1, quantity := some 5, unit_price := none }
    lowStockVariant (by decide) (by decide) (by decide)
    (by intro it h; simp at h) (by decide) (by decide)

theorem stockOf_increase_same (vs : List ProductVariant) (vid q : Nat) :
    stockOf (increaseStock vs vid q) vid
      = (stockOf vs vid).map (fun s => s + q) := by
  induction vs with
  | nil => rfl
  | cons v vs ih =>
    simp only [increaseStock, List.map_cons] at *
    by_cases h : v.id = vid
    · rw [if_pos h]
      simp [stockOf, List.find?_cons_of_pos, h, ProductVariant.increase_stock]
    · rw [if_neg h]
      simp only [stockOf, List.find?] at *
      rw [decide_eq_false h]
      simp only []
      exact ih

theorem stockOf_increase_other (vs : List ProductVariant) (vid q vid' : Nat)
    (h : vid' ≠ vid) :
    stockOf (increaseStock vs vid q) vid' = stockOf vs vid' := by
  induction vs with
  | nil => rfl
  | cons v vs ih =>
    simp only [increaseStock, List.map_cons] at *
    by_cases hv : v.id = vid
    · rw [if_pos hv]
      have h2 : ¬ (v.increase_stock q).id = vid' := by
        simp [ProductVariant.increase_stock, hv]
        exact fun he => h he.symm
      have h3 : ¬ v.id = vid' := by rw [hv]; exact fun he => h he.symm
      simp only [stockOf, List.find?] at *
      rw [decide_eq_false h2, decide_eq_false h3]
      simp only []
      exact ih
    · rw [if_neg hv]
      simp only [stockOf, List.find?] at *
      by_cases h4 : v.id = vid'
      · rw [decide_eq_true h4]
      · rw [decide_eq_false h4]
        simp only []
        exact ih

theorem restockAll_untouched (its : List OrderItem)
    (vs : List ProductVariant) (vid : Nat)
    (h : ∀ it ∈ its, it.variant ≠ some vid) :
    stockOf (restockAll its vs) vid = stockOf vs vid := by
  induction its generalizing vs with
  | nil => rfl
  | cons it its ih =>
    have hh := h it (List.mem_cons_self it its)
    have ht : ∀ x ∈ its, x.variant ≠ some vid :=
      fun x hx => h x (List.mem_cons_of_mem _ hx)
    cases hv : it.variant with
    | none =>
      simp only [restockAll, hv]
      exact ih vs ht
    | some w =>
      have hw : w ≠ vid := fun he => hh (by rw [hv, he])
      simp only [restockAll, hv]
      rw [ih _ ht]
      exact stockOf_increase_other vs w it.quantity vid (fun he => hw he.symm)

theorem restockAll_stock (its : List OrderItem) (vs : List ProductVariant)
    (hdist : its.Pairwise (fun a b => a.variant ≠ b.variant))
    (it : OrderItem) (hmem : it ∈ its) (vid : Nat)
    (hv : it.variant = some vid) :
    stockOf (restockAll its vs) vid
      = (stockOf vs vid).map (fun s => s + it.quantity) := by
  induction its generalizing vs with
  | nil => cases hmem
  | cons hd its ih =>
    rcases List.mem_cons.1 hmem with rfl | hmem2
    · have htail : ∀ x ∈ its, x.variant ≠ some vid := by
        intro x hx he
        exact (List.pairwise_cons.1 hdist).1 x hx (hv.trans he.symm)
      simp only [restockAll, hv]
      rw [restockAll_untouched its _ vid htail]
      exact stockOf_increase_same vs vid it.quantity
    · have hhd : hd.variant ≠ some vid := by
        intro he
        exact (List.pairwise_cons.1 hdist).1 it hmem2 (he.trans hv.symm)
      have hd2 := (List.pairwise_cons.1 hdist).2
      cases hw : hd.variant with
      | none =>
        simp only [restockAll, hw]
        exact ih vs hd2 hmem2
      | some w =>
        have hwv : w ≠ vid := fun he => hhd (by rw [hw, he])
        simp only [restockAll, hw]
        rw [ih _ hd2 hmem2]
        rw [stockOf_increase_other vs w hd.quantity vid
          (fun he => hwv he.symm)]

theorem save_id (d r : String) (o : Order) : (Order.save d r o).id = o.id := by
  by_cases h : o.order_number = "" <;> simp [Order.save, h]

theorem save_user (d r : String) (o : Order) :
    (Order.save d r o).user = o.user := by
  by_cases h : o.order_number = "" <;> simp [Order.save, h]

theorem save_cancelled_at (d r : String) (o : Order) :
    (Order.save d r o).cancelled_at = o.cancelled_at := by
  by_cases h : o.order_number = "" <;> simp [Order.save, h]

theorem save_admin_note (d r : String) (o : Order) :
    (Order.save d r o).admin_note = o.admin_note := by
  by_cases h : o.order_number = "" <;> simp [Order.save, h]

theorem save_status2 (d r : String) (o : Order) :
    (Order.save d r o).status = o.status := by
  by_cases h : o.order_number = "" <;> simp [Order.save, h]

theorem find?_replaceOrder (os : List Order) (o o2 : Order) (n : Nat)
    (h : os.find? (fun x => x.id = n) = some o) (hid : o2.id = o.id) :
    (replaceOrder os o2).find? (fun x => x.id = n) = some o2 := by
  induction os with
  | nil => simp [List.find?] at h
  | cons x os ih =>
    simp only [replaceOrder, List.map_cons]
    by_cases hx : x.id = n
    · rw [List.find?_cons_of_pos _ (by simp [hx])] at h
      have hxo : x = o := by injection h
      have hoid : o.id = n := by rw [← hxo, hx]
      have hx2 : x.id = o2.id := by rw [hxo, hid]
      rw [if_pos hx2]
      exact List.find?_cons_of_pos _ (by simp [hid, hoid])
    · rw [List.find?_cons_of_neg _ (by simp [hx])] at h
      by_cases hx2 : x.id = o2.id
      · rw [if_pos hx2]
        have hon : ¬ o2.id = n := by
          rw [← hx2]
          exact hx
        rw [List.find?_cons_of_neg _ (by simp [hon])]
        simpa [replaceOrder] using ih h
      · rw [if_neg hx2]
        rw [List.find?_cons_of_neg _ (by simp [hx])]
        simpa [replaceOrder] using ih h

theorem permissionBlocked_congr (user : Option UserRec) (o o2 : Order)
    (h : o2.user = o.user) :
    permissionBlocked user o2 = permissionBlocked user o := by
  cases user with
  | none => rfl
  | some u => simp [permissionBlocked, h]

/-- C4: cancelling a found order in a cancellable state ('pending' or
'confirmed'), by a permitted actor and with a reason, succeeds: every item's
variant stock increases by exactly that item's quantity, the status becomes
'cancelled', `cancelled_at` is stamped, and the audit note records the
cancellation; a second cancel attempt on the resulting store fails with the
invalid-state ValidationError and (returning an error) changes nothing. -/
theorem C4_cancel_restores_stock (st : Store) (oid : Nat)
    (user : Option UserRec) (reason : String) (now : Nat) (d r : String)
    (o : Order)
    (hfind : findOrder st (.byId oid) = some o)
    (hcan : o.can_cancel = true)
    (hperm : permissionBlocked user o = false)
    (hreason : reason ≠ "")
    (hdist : (itemsOf st o.id).Pairwise (fun a b => a.variant ≠ b.variant)) :
    ∃ st2 o2,
      cancel_order st (.byId oid) user reason now d r = .ok (st2, o2)
      ∧ o2.status = "cancelled"
      ∧ o2.cancelled_at = some now
      ∧ o2.admin_note = cancelNote user reason
      ∧ (∀ it ∈ itemsOf st o.id, ∀ vid, it.variant = some vid →
          stockOf st2.variants vid
            = (stockOf st.variants vid).map (fun s => s + it.quantity))
      ∧ cancel_order st2 (.byId oid) user reason now d r
          = .error (.validationError
              "Order cannot be cancelled in its current state") := by
  unfold cancel_order
  simp only [hfind]
  rw [hperm]
  simp only [Bool.false_eq_true, if_false]
  rw [if_neg (by rw [hcan]; exact fun hc => hc rfl)]
  refine ⟨_, _, rfl, ?_, ?_, ?_, ?_, ?_⟩
  · rw [save_status2]
  · rw [save_cancelled_at]
  · rw [save_admin_note]
    simp [hreason]
  · intro it hit vid hv
    simp only []
    exact restockAll_stock (itemsOf st o.id) st.variants hdist it hit vid hv
  · have hfind0 : st.orders.find? (fun x => x.id = oid) = some o := hfind
    have hid : (Order.save d r { o with
        status := "cancelled"
        admin_note := if reason ≠ "" then cancelNote user reason else o.admin_note
        cancelled_at := some now }).id = o.id := save_id d r _
    have hf2 := find?_replaceOrder st.orders o _ oid hfind0 hid
    simp only [findOrder, hf2]
    have hpb : permissionBlocked user (Order.save d r { o with
        status := "cancelled"
        admin_note := if reason ≠ "" then cancelNote user reason else o.admin_note
        cancelled_at := some now }) = false := by
      rw [permissionBlocked_congr user o _ (by rw [save_user])]
      exact hperm
    rw [hpb]
    simp only [Bool.false_eq_true, if_false]
    have hcc : ¬ (Order.save d r { o with
        status := "cancelled"
        admin_note := if reason ≠ "" then cancelNote user reason else o.admin_note
        cancelled_at := some now }).can_cancel = true := by
      unfold Order.can_cancel
      rw [save_status2]
      simp
    rw [if_pos hcc]

unseal Rat.sub Rat.add Rat.mul Rat.inv in
theorem C4_cancel_restores_stock_witness :
    ∃ st2 o2,
      cancel_order cancelStore (.byId 100) none "customer request" 42
          "20260101" "1234" = .ok (st2, o2)
      ∧ o2.status = "cancelled"
      ∧ o2.cancelled_at = some 42
      ∧ o2.admin_note = cancelNote none "customer request"
      ∧ (∀ it ∈ itemsOf cancelStore confirmedOrder.id, ∀ vid,
          it.variant = some vid →
          stockOf st2.variants vid
            = (stockOf cancelStore.variants vid).map
                (fun s => s + it.quantity))
      ∧ cancel_order st2 (.byId 100) none "customer request" 42
          "20260101" "1234"
          = .error (.validationError
              "Order cannot be cancelled in its current state") :=
  C4_cancel_restores_stock cancelStore 100 none "customer request" 42
    "20260101" "1234" confirmedOrder (by decide) (by decide) (by decide)
    (by decide) (by decide)

end EStore
